import Mathlib

/-!
Shallow embedding of the ride-form service (app.py, bot.py) for checking
its natural-language specification.

Python strings are modelled as lists of characters (`Str`).  Python's
`str.strip` is modelled by `pyStrip`, `str.isdigit`-filtering by
`digitsOf`, `str.replace(" ", "")` by a filter dropping space characters,
and `str.lower` by `pyLower` (ASCII plus the basic Cyrillic range, which
covers every literal appearing in the source).  Latitude and longitude
are modelled as rationals: the source performs no floating-point
arithmetic on them, only range comparisons and tupling.
-/

namespace RideForm

/-- Python strings, modelled as lists of characters. -/
abbrev Str := List Char

/-- Python `str.strip()`: drop whitespace from both ends. -/
def pyStrip (l : Str) : Str :=
  ((l.dropWhile Char.isWhitespace).reverse.dropWhile Char.isWhitespace).reverse

/-- The digit characters of a string, in order: models
`"".join(ch for ch in v if ch.isdigit())` in app.py. -/
def digitsOf (l : Str) : Str := l.filter Char.isDigit

/-- Python `v.replace(" ", "")`: remove every space character. -/
def removeSpaces (l : Str) : Str := l.filter (fun c => !(c == ' '))

/-- Python `str.lower` restricted to ASCII letters and the Cyrillic
range used by the source's literals. -/
def pyLowerChar (c : Char) : Char :=
  if 'A' ≤ c ∧ c ≤ 'Z' then Char.ofNat (c.toNat + 32)
  else if 'А' ≤ c ∧ c ≤ 'Я' then Char.ofNat (c.toNat + 32)
  else if c = 'Ё' then 'ё'
  else c

/-- Python `str.lower()` on a whole string. -/
def pyLower (l : Str) : Str := l.map pyLowerChar

/-- Phone normalization, from `RideRequestIn.normalize_phone` in app.py:
strip the raw value, extract its digits; an 11-digit number starting
with 8 becomes +7 followed by the last 10 digits; otherwise a value
already starting with + becomes + followed by the digits; otherwise
just the digits. -/
def normalize_phone (v : Str) : Str :=
  if (digitsOf (pyStrip v)).length = 11 ∧ (digitsOf (pyStrip v)).head? = some '8' then
    '+' :: '7' :: (digitsOf (pyStrip v)).drop 1
  else if (pyStrip v).head? = some '+' then
    '+' :: digitsOf (pyStrip v)
  else
    digitsOf (pyStrip v)

/-- Telegram-handle normalization, from `RideRequestIn.normalize_tg` in
app.py: strip, remove spaces, and drop one leading `@`. -/
def normalize_tg (v : Str) : Str :=
  if (removeSpaces (pyStrip v)).head? = some '@' then
    (removeSpaces (pyStrip v)).tail
  else
    removeSpaces (pyStrip v)

/-- Environment-derived configuration of app.py (each value is already
`.strip()`-ed by the loading code, so "unset" is the empty string). -/
structure Config where
  telegram_bot_token : Str
  telegram_chat_id : Str
  bot_delete_token : Str

/-- Models `_telegram_enabled` in app.py: `bool(TELEGRAM_BOT_TOKEN and
TELEGRAM_CHAT_ID)`. -/
def telegram_enabled (cfg : Config) : Bool :=
  !(cfg.telegram_bot_token.isEmpty) && !(cfg.telegram_chat_id.isEmpty)

/-- The `start_point` sub-object of the inbound payload (class
`StartPoint` in app.py). -/
structure StartPoint where
  address : Str
  lat : Rat
  lon : Rat

/-- The inbound submission payload (class `RideRequestIn` in app.py),
before validation. -/
structure RideRequestIn where
  name : Str
  phone : Str
  tg : Option Str
  day : Str
  earliest_time : Str
  people : Int
  start_point : StartPoint

/-- Pattern `^\d{2}:\d{2}$` on `earliest_time`. -/
def isTimePattern (t : Str) : Bool :=
  match t with
  | [a, b, c, d, e] => a.isDigit && b.isDigit && (c == ':') && d.isDigit && e.isDigit
  | _ => false

/-- The pydantic Field constraints of `RideRequestIn` and `StartPoint`:
the names of the fields whose structural constraint fails, in
declaration order.  An empty result means the payload is structurally
valid. -/
def structErrors (r : RideRequestIn) : List Str :=
  (if 1 ≤ r.name.length ∧ r.name.length ≤ 100 then [] else ["name".data])
  ++ (if 5 ≤ r.phone.length ∧ r.phone.length ≤ 32 then [] else ["phone".data])
  ++ (match r.tg with
      | none => []
      | some t => if t.length ≤ 64 then [] else ["tg".data])
  ++ (if r.day = "30".data ∨ r.day = "31".data then [] else ["day".data])
  ++ (if isTimePattern r.earliest_time then [] else ["earliest_time".data])
  ++ (if 1 ≤ r.people ∧ r.people ≤ 10 then [] else ["people".data])
  ++ (if 2 ≤ r.start_point.address.length ∧ r.start_point.address.length ≤ 200
      then [] else ["start_point.address".data])
  ++ (if -90 ≤ r.start_point.lat ∧ r.start_point.lat ≤ 90
      then [] else ["start_point.lat".data])
  ++ (if -180 ≤ r.start_point.lon ∧ r.start_point.lon ≤ 180
      then [] else ["start_point.lon".data])

/-- The canonical payload after pydantic validation: the field
validators `normalize_phone` and `normalize_tg` have run (`tg` is a
plain string from here on, `None` having been coerced to `""`). -/
structure RideRequestCanon where
  name : Str
  phone : Str
  tg : Str
  day : Str
  earliest_time : Str
  people : Int
  start_point : StartPoint

/-- The canonical record the pydantic field validators produce from a
structurally valid payload. -/
def canonOf (r : RideRequestIn) : RideRequestCanon :=
  { name := r.name
    phone := normalize_phone r.phone
    tg := normalize_tg (r.tg.getD [])
    day := r.day
    earliest_time := r.earliest_time
    people := r.people
    start_point := r.start_point }

/-- Pydantic validation of `RideRequestIn`: structural checks first,
then the field validators.  Failure carries the list of offending
fields, which FastAPI renders as a structured 422 body. -/
def validate (r : RideRequestIn) : Except (List Str) RideRequestCanon :=
  if structErrors r = [] then Except.ok (canonOf r)
  else Except.error (structErrors r)

/-- The derived GeoJSON-style point stored under `start_point.geo`. -/
structure GeoPoint where
  type : Str
  coordinates : List Rat
deriving DecidableEq

/-- The stored `start_point` sub-document: the caller-supplied fields
plus the derived `geo`. -/
structure StartPointDoc where
  address : Str
  lat : Rat
  lon : Rat
  geo : GeoPoint
deriving DecidableEq

/-- A persisted ride-request document, as built by `create_request`. -/
structure RideDoc where
  name : Str
  phone : Str
  tg : Str
  day : Str
  earliest_time : Str
  people : Int
  start_point : StartPointDoc
  created_at : Str
deriving DecidableEq

/-- The Store: a list of (ObjectId string, document) pairs.  Mongo
assigns the ObjectId on insert; the model threads it in as the
`freshId` argument of `create_request`. -/
abbrev Store := List (Str × RideDoc)

/-- The detail part of an HTTP error response: either FastAPI's
structured list of pydantic field errors, or the plain string detail of
an explicit `HTTPException`. -/
inductive Detail where
  | fieldErrors (fs : List Str)
  | msg (s : Str)
deriving DecidableEq

/-- An HTTP error response (status code plus detail). -/
structure HttpError where
  status : Nat
  detail : Detail
deriving DecidableEq

/-- The full observable outcome of one `POST /api/ride-request` call:
the HTTP outcome (error, or the new id echoed in `{ok:true, id}`), the
store after the call, and the notification tasks scheduled. -/
structure SubmitResult where
  outcome : Except HttpError Str
  store : Store
  notified : List (RideDoc × Str)

/-- The document `create_request` builds from the validated payload:
the canonical fields, the stamped `created_at`, and the derived
`start_point.geo` with coordinates in `[lon, lat]` order. -/
def canonDoc (now : Str) (c : RideRequestCanon) : RideDoc :=
  { name := c.name
    phone := c.phone
    tg := c.tg
    day := c.day
    earliest_time := c.earliest_time
    people := c.people
    start_point :=
      { address := c.start_point.address
        lat := c.start_point.lat
        lon := c.start_point.lon
        geo := { type := "Point".data
                 coordinates := [c.start_point.lon, c.start_point.lat] } }
    created_at := now }

/-- Models the `create_request` handler of app.py: pydantic validation
(422 with field errors on failure), then document construction with
`created_at := now` and the derived `geo`, then the digit-count check on
the normalized phone (422 "Invalid phone"), then the insert and the
conditional scheduling of the Telegram notification. -/
def create_request (cfg : Config) (now freshId : Str) (payload : RideRequestIn)
    (store : Store) : SubmitResult :=
  match validate payload with
  | Except.error fs => ⟨Except.error ⟨422, Detail.fieldErrors fs⟩, store, []⟩
  | Except.ok c =>
    let doc := canonDoc now c
    if 10 ≤ (digitsOf doc.phone).length ∧ (digitsOf doc.phone).length ≤ 15 then
      ⟨Except.ok freshId, store ++ [(freshId, doc)],
        if telegram_enabled cfg then [(doc, freshId)] else []⟩
    else
      ⟨Except.error ⟨422, Detail.msg "Invalid phone".data⟩, store, []⟩

/-- Models `bson.ObjectId.is_valid` on a string: exactly 24 hexadecimal
characters. -/
def isHexChar (c : Char) : Bool :=
  c.isDigit || ('a' ≤ c && c ≤ 'f') || ('A' ≤ c && c ≤ 'F')

/-- Validity of an ObjectId string. -/
def objectIdValid (s : Str) : Bool :=
  (s.length == 24) && s.all isHexChar

/-- Models Mongo's `delete_one({"_id": oid})`: remove the first document
with that id (ids are unique in Mongo) and report the deleted count. -/
def delete_one (store : Store) (id : Str) : Store × Nat :=
  (store.eraseP (fun p => p.1 == id),
   if store.any (fun p => p.1 == id) then 1 else 0)

/-- Models the `delete_request` handler of app.py: token gate first
(403), then ObjectId format check (400), then the deletion (404 when
nothing matched, otherwise `{ok:true, id}`). -/
def delete_request (cfg : Config) (token request_id : Str) (store : Store) :
    Except HttpError Str × Store :=
  if cfg.bot_delete_token = [] ∨ token ≠ cfg.bot_delete_token then
    (Except.error ⟨403, Detail.msg "Forbidden".data⟩, store)
  else if !(objectIdValid request_id) then
    (Except.error ⟨400, Detail.msg "Invalid id".data⟩, store)
  else
    let r := delete_one store request_id
    if r.2 = 0 then
      (Except.error ⟨404, Detail.msg "Not found".data⟩, r.1)
    else
      (Except.ok request_id, r.1)

/-- The body of `GET /api/count`. -/
structure CountResp where
  ok : Bool
  count : Nat
  people : Int
deriving DecidableEq

/-- Models the `$project`/`$group` aggregation of the `count` handler:
one group summing `people` (with `$ifNull` defaulting a missing field
to 1; in this model every document carries `people`), or no group at
all when the collection is empty. -/
def people_aggregate (store : Store) : List Int :=
  match store with
  | [] => []
  | _ => [(store.map (fun p => p.2.people)).sum]

/-- Models the `count` handler of app.py: `count_documents({})` plus the
people aggregation, substituting 0 when the aggregation returns no
group. -/
def count_endpoint (store : Store) : CountResp :=
  { ok := true
    count := store.length
    people := match people_aggregate store with
              | [] => 0
              | p :: _ => p }

/-- An incoming operator update, as dispatched by `main` in bot.py: the
four registered commands (with arguments for `/delete`), or a plain
text message routed to `message_router`. -/
inductive TgMessage where
  | cmdStart
  | cmdCount
  | cmdLast
  | cmdDelete (args : List Str)
  | freeText (t : Str)

/-- The distinct reply texts the bot can send, one constructor per
literal in bot.py: `denied` is the fixed refusal "Доступ запрещён.",
`menu` the /start menu, `countIs` the participant count, `emptyList`
"Пока пусто.", `lastList` the rendered recent records, `usageDelete`
the /delete usage reminder, `badId` "Некорректный id.", `deletedOk`
"Удалено.", `notFound` "Не найдено.", and `notUnderstood` the fixed
"Команда не понята. Есть /count, /last, /delete <id>." fallback. -/
inductive Reply where
  | denied
  | menu
  | countIs (n : Nat)
  | emptyList
  | lastList (docs : List (Str × RideDoc))
  | usageDelete
  | badId
  | deletedOk
  | notFound
  | notUnderstood
deriving DecidableEq

/-- A Store operation issued by a bot handler. -/
inductive StoreOp where
  | countDocs
  | findRecent (n : Nat)
  | deleteDoc (id : Str)
deriving DecidableEq

/-- The observable effect of handling one operator update: the replies
sent, the store afterwards, and the Store operations issued. -/
structure BotStep where
  replies : List Reply
  store : Store
  ops : List StoreOp
deriving DecidableEq

/-- Models `_is_allowed` in bot.py: an empty allow-list permits
everyone, otherwise the sender's id (as a decimal string) must be
listed. -/
def is_allowed (allowed : List Str) (uid : Int) : Bool :=
  allowed.isEmpty || allowed.contains (toString uid).data

/-- Lexicographic order on strings by character code, modelling BSON
string comparison for the `created_at` sort. -/
def strLe : Str → Str → Bool
  | [], _ => true
  | _ :: _, [] => false
  | a :: as, b :: bs =>
    if a.val < b.val then true
    else if a.val = b.val then strLe as bs
    else false

/-- Insert into a list kept sorted descending by `created_at`. -/
def insertDesc (x : Str × RideDoc) : List (Str × RideDoc) → List (Str × RideDoc)
  | [] => [x]
  | y :: ys =>
    if strLe y.2.created_at x.2.created_at then x :: y :: ys
    else y :: insertDesc x ys

/-- Models `_last` in bot.py: the 5 most recent documents, most recent
first (`sort("created_at", -1).limit(5)`). -/
def lastDocs (store : Store) : List (Str × RideDoc) :=
  (store.foldr insertDesc []).take 5

/-- Models `start` in bot.py. -/
def start_cmd (allowed : List Str) (uid : Int) (store : Store) : BotStep :=
  if !(is_allowed allowed uid) then ⟨[Reply.denied], store, []⟩
  else ⟨[Reply.menu], store, []⟩

/-- Models `count_cmd` in bot.py. -/
def count_cmd (allowed : List Str) (uid : Int) (store : Store) : BotStep :=
  if !(is_allowed allowed uid) then ⟨[Reply.denied], store, []⟩
  else ⟨[Reply.countIs store.length], store, [StoreOp.countDocs]⟩

/-- Models `last_cmd` in bot.py. -/
def last_cmd (allowed : List Str) (uid : Int) (store : Store) : BotStep :=
  if !(is_allowed allowed uid) then ⟨[Reply.denied], store, []⟩
  else
    let docs := lastDocs store
    if docs.isEmpty then ⟨[Reply.emptyList], store, [StoreOp.findRecent 5]⟩
    else ⟨[Reply.lastList docs], store, [StoreOp.findRecent 5]⟩

/-- Models `delete_cmd` in bot.py. -/
def delete_cmd (allowed : List Str) (uid : Int) (args : List Str) (store : Store) :
    BotStep :=
  if !(is_allowed allowed uid) then ⟨[Reply.denied], store, []⟩
  else
    match args with
    | [] => ⟨[Reply.usageDelete], store, []⟩
    | rid :: _ =>
      if !(objectIdValid rid) then ⟨[Reply.badId], store, []⟩
      else
        let r := delete_one store rid
        if r.2 = 0 then ⟨[Reply.notFound], r.1, [StoreOp.deleteDoc rid]⟩
        else ⟨[Reply.deletedOk], r.1, [StoreOp.deleteDoc rid]⟩

/-- Models `message_router` in bot.py: lowercase the stripped text,
match the two keyboard phrases, otherwise reply that the command was
not understood (note: this fallback reply is sent without an
allow-list check). -/
def message_router (allowed : List Str) (uid : Int) (t : Str) (store : Store) :
    BotStep :=
  if pyLower (pyStrip t) = "сколько участников?".data then count_cmd allowed uid store
  else if pyLower (pyStrip t) = "последние 5".data then last_cmd allowed uid store
  else ⟨[Reply.notUnderstood], store, []⟩

/-- The dispatch table registered in `main` of bot.py. -/
def dispatch (allowed : List Str) (uid : Int) (msg : TgMessage) (store : Store) :
    BotStep :=
  match msg with
  | TgMessage.cmdStart => start_cmd allowed uid store
  | TgMessage.cmdCount => count_cmd allowed uid store
  | TgMessage.cmdLast => last_cmd allowed uid store
  | TgMessage.cmdDelete args => delete_cmd allowed uid args store
  | TgMessage.freeText t => message_router allowed uid t store

/-- A concrete valid payload, following the spec's scenario
(`name:"A", phone:"89161234567", day:"30", earliest_time:"09:00",
lat:55.0, lon:37.0`), with a two-character address since the code's
`StartPoint.address` constraint requires at least 2 characters. -/
def scenarioPayload : RideRequestIn :=
  { name := "A".data
    phone := "89161234567".data
    tg := none
    day := "30".data
    earliest_time := "09:00".data
    people := 1
    start_point := { address := "XY".data, lat := 55, lon := 37 } }

/-- A payload valid in every field except its phone, which is too short
for the structural 5–32 length bound (and has only 4 digits). -/
def shortPhonePayload : RideRequestIn :=
  { scenarioPayload with phone := "1234".data }

/-- A payload whose phone passes the structural length bound but whose
normalized form has only 5 digits. -/
def punctPhonePayload : RideRequestIn :=
  { scenarioPayload with phone := "+1-23-45".data }

/-! Helper lemmas about the string primitives. -/

/-- A whitespace character is not a digit. -/
theorem ws_not_digit {c : Char} (h : c.isWhitespace = true) : c.isDigit = false := by
  have hc : ((c = ' ' ∨ c = '\t') ∨ c = '\x0d') ∨ c = '\n' := by
    simpa [Char.isWhitespace, decide_eq_true_eq, Bool.or_eq_true] using h
  rcases hc with ((h | h) | h) | h <;> subst h <;> decide

/-- A digit character is not whitespace. -/
theorem digit_not_ws {c : Char} (h : c.isDigit = true) : c.isWhitespace = false := by
  cases hw : c.isWhitespace with
  | false => rfl
  | true => rw [ws_not_digit hw] at h; exact absurd h (by decide)

/-- Members of `digitsOf l` are digits. -/
theorem mem_digitsOf {c : Char} {l : Str} (h : c ∈ digitsOf l) : c.isDigit = true :=
  (List.mem_filter.mp h).2

/-- Dropping a leading whitespace run does not change the digits. -/
theorem digitsOf_dropWhile (l : Str) :
    digitsOf (l.dropWhile Char.isWhitespace) = digitsOf l := by
  induction l with
  | nil => rfl
  | cons a t ih =>
    by_cases h : a.isWhitespace = true
    · rw [List.dropWhile_cons, if_pos h, ih]
      simp [digitsOf, List.filter_cons, ws_not_digit h]
    · rw [List.dropWhile_cons, if_neg h]

/-- Stripping does not change the digits of a string. -/
theorem digitsOf_pyStrip (l : Str) : digitsOf (pyStrip l) = digitsOf l := by
  have hrev : ∀ x : Str, digitsOf x.reverse = (digitsOf x).reverse :=
    fun x => List.filter_reverse _ _
  unfold pyStrip
  rw [hrev, digitsOf_dropWhile, hrev, List.reverse_reverse, digitsOf_dropWhile]

/-- Lemma: `dropWhile` is the identity when no element satisfies the
predicate. -/
theorem dropWhile_eq_self_of_all {p : Char → Bool} {l : Str}
    (h : ∀ c ∈ l, p c = false) : l.dropWhile p = l := by
  cases l with
  | nil => rfl
  | cons a t => rw [List.dropWhile_cons, h a (List.mem_cons_self a t)]; simp

/-- Stripping a string with no whitespace anywhere is the identity. -/
theorem pyStrip_eq_self {l : Str} (h : ∀ c ∈ l, c.isWhitespace = false) :
    pyStrip l = l := by
  unfold pyStrip
  rw [dropWhile_eq_self_of_all h,
      dropWhile_eq_self_of_all (fun c hc => h c (List.mem_reverse.mp hc)),
      List.reverse_reverse]

/-- Filtering digits out of an all-digit string is the identity. -/
theorem digitsOf_eq_self {l : Str} (h : ∀ c ∈ l, c.isDigit = true) :
    digitsOf l = l :=
  List.filter_eq_self.mpr h

/-! Theorems for the claims, one per claim, preceded by witnesses'
supporting instances where needed. -/

/-- C10: on an empty Store, `GET /api/count` returns `count = 0` and
`people = 0` (the aggregation yields no group and the handler
substitutes 0), with the usual `ok` flag. -/
theorem c10_count_empty : count_endpoint [] = { ok := true, count := 0, people := 0 } :=
  rfl

/-- C6: whenever the supplied X-Delete-Token differs from the
configured secret — including when no secret is configured (empty
after strip) — `DELETE /api/ride-request/{id}` returns the one fixed
403 "Forbidden" response and leaves the Store unchanged, for every
store (so also when no record with the given id exists); the response
value is the same in all these cases, so nothing distinguishes "no
secret" from "wrong secret". -/
theorem c6_delete_forbidden (cfg : Config) (token rid : Str) (store : Store)
    (h : cfg.bot_delete_token = [] ∨ token ≠ cfg.bot_delete_token) :
    delete_request cfg token rid store =
      (Except.error ⟨403, Detail.msg "Forbidden".data⟩, store) := by
  unfold delete_request
  rw [if_pos h]

/-- Witness for C6 at a concrete configuration: secret "s", wrong token
"w", an id that matches nothing, empty store. -/
theorem c6_delete_forbidden_witness :
    delete_request ⟨[], [], "s".data⟩ "w".data "x".data [] =
      (Except.error ⟨403, Detail.msg "Forbidden".data⟩, []) :=
  c6_delete_forbidden ⟨[], [], "s".data⟩ "w".data "x".data [] (Or.inr (by decide))

/-- C9: the delete endpoint checks the token before the identifier
format: with a missing or wrong token the result is the 403 response
for every identifier, malformed ones included; and the 400 "Invalid id"
response can only arise when a secret is configured and the token
matches it. -/
theorem c9_token_before_id (cfg : Config) (token rid : Str) (store : Store) :
    (cfg.bot_delete_token = [] ∨ token ≠ cfg.bot_delete_token →
      (delete_request cfg token rid store).1 =
        Except.error ⟨403, Detail.msg "Forbidden".data⟩) ∧
    ((delete_request cfg token rid store).1 =
        Except.error ⟨400, Detail.msg "Invalid id".data⟩ →
      cfg.bot_delete_token ≠ [] ∧ token = cfg.bot_delete_token) := by
  constructor
  · intro h
    unfold delete_request
    rw [if_pos h]
  · intro h
    by_cases hb : cfg.bot_delete_token = [] ∨ token ≠ cfg.bot_delete_token
    · exfalso
      unfold delete_request at h
      rw [if_pos hb] at h
      simp at h
    · push_neg at hb
      exact hb

/-- Witness for C9: with a structurally malformed identifier "zz" and a
wrong token, the result is still the 403 response (not the 400 one). -/
theorem c9_token_before_id_witness :
    (delete_request ⟨[], [], "s".data⟩ "w".data "zz".data []).1 =
      Except.error ⟨403, Detail.msg "Forbidden".data⟩ :=
  (c9_token_before_id ⟨[], [], "s".data⟩ "w".data "zz".data []).1 (Or.inr (by decide))

/-- C3: phone normalization implements the three-case rule, in order,
stated over the digit characters of the raw value (stripping whitespace
from the ends does not change them, so `digitsOf v` here genuinely is
the digits of the raw value): an 11-digit number starting with 8
becomes +7 plus the remaining 10 digits; otherwise a (stripped) value
starting with + becomes + plus all the digit characters; otherwise the
digit characters alone.  In particular "89161234567" normalizes to
"+79161234567". -/
theorem c3_normalize_phone_rule :
    (∀ v : Str,
      normalize_phone v =
        if (digitsOf v).length = 11 ∧ (digitsOf v).head? = some '8' then
          '+' :: '7' :: (digitsOf v).drop 1
        else if (pyStrip v).head? = some '+' then '+' :: digitsOf v
        else digitsOf v) ∧
    normalize_phone "89161234567".data = "+79161234567".data := by
  constructor
  · intro v
    unfold normalize_phone
    rw [digitsOf_pyStrip]
  · decide

/-- Normalization fixes any string of the form +7 followed by ten
digits. -/
theorem norm_plus7 (t : Str) (ht : ∀ c ∈ t, c.isDigit = true) (_hlen : t.length = 10) :
    normalize_phone ('+' :: '7' :: t) = '+' :: '7' :: t := by
  have hall : ∀ c ∈ ('+' :: '7' :: t), c.isWhitespace = false := by
    intro c hc
    rcases List.mem_cons.mp hc with rfl | hc
    · decide
    · rcases List.mem_cons.mp hc with rfl | hc
      · decide
      · exact digit_not_ws (ht c hc)
  have hdig : digitsOf ('+' :: '7' :: t) = '7' :: t := by
    have h1 : ('+' : Char).isDigit = false := by decide
    have h2 : ('7' : Char).isDigit = true := by decide
    simp only [digitsOf, List.filter_cons, h1, h2, if_pos, if_neg, Bool.false_eq_true,
      ite_false, ite_true]
    show '7' :: digitsOf t = '7' :: t
    rw [digitsOf_eq_self ht]
  have hp : ('+' :: '7' :: t).head? = some '+' := rfl
  unfold normalize_phone
  rw [pyStrip_eq_self hall, hdig]
  rw [if_neg (by simp), if_pos hp]

/-- Normalization fixes + followed by digits not matching the
domestic-prefix case. -/
theorem norm_plus (t : Str) (ht : ∀ c ∈ t, c.isDigit = true)
    (hcond : ¬(t.length = 11 ∧ t.head? = some '8')) :
    normalize_phone ('+' :: t) = '+' :: t := by
  have hall : ∀ c ∈ ('+' :: t), c.isWhitespace = false := by
    intro c hc
    rcases List.mem_cons.mp hc with rfl | hc
    · decide
    · exact digit_not_ws (ht c hc)
  have hdig : digitsOf ('+' :: t) = t := by
    have h1 : ('+' : Char).isDigit = false := by decide
    simp only [digitsOf, List.filter_cons, h1, Bool.false_eq_true, ite_false]
    exact digitsOf_eq_self ht
  have hp : ('+' :: t).head? = some '+' := rfl
  unfold normalize_phone
  rw [pyStrip_eq_self hall, hdig]
  rw [if_neg hcond, if_pos hp]

/-- Normalization fixes an all-digit string not matching the
domestic-prefix case. -/
theorem norm_digits (t : Str) (ht : ∀ c ∈ t, c.isDigit = true)
    (hcond : ¬(t.length = 11 ∧ t.head? = some '8')) :
    normalize_phone t = t := by
  have hall : ∀ c ∈ t, c.isWhitespace = false := fun c hc => digit_not_ws (ht c hc)
  have hdig : digitsOf t = t := digitsOf_eq_self ht
  have hplus : t.head? ≠ some '+' := by
    cases t with
    | nil => simp
    | cons a s =>
      intro h
      have ha : a = '+' := Option.some.inj h
      have := ht a (List.mem_cons_self a s)
      rw [ha] at this
      exact absurd this (by decide)
  unfold normalize_phone
  rw [pyStrip_eq_self hall, hdig]
  rw [if_neg hcond, if_neg hplus]

/-- C4: phone normalization is idempotent — applying
`normalize_phone` to its own output returns the output unchanged. -/
theorem c4_normalize_phone_idem (v : Str) :
    normalize_phone (normalize_phone v) = normalize_phone v := by
  by_cases h1 : (digitsOf (pyStrip v)).length = 11 ∧
      (digitsOf (pyStrip v)).head? = some '8'
  · have hNv : normalize_phone v = '+' :: '7' :: (digitsOf (pyStrip v)).drop 1 := by
      unfold normalize_phone
      rw [if_pos h1]
    rw [hNv]
    apply norm_plus7
    · intro c hc
      exact mem_digitsOf (List.drop_subset _ _ hc)
    · rw [List.length_drop, h1.1]
  · by_cases h2 : (pyStrip v).head? = some '+'
    · have hNv : normalize_phone v = '+' :: digitsOf (pyStrip v) := by
        unfold normalize_phone
        rw [if_neg h1, if_pos h2]
      rw [hNv]
      exact norm_plus _ (fun c hc => mem_digitsOf hc) h1
    · have hNv : normalize_phone v = digitsOf (pyStrip v) := by
        unfold normalize_phone
        rw [if_neg h1, if_neg h2]
      rw [hNv]
      exact norm_digits _ (fun c hc => mem_digitsOf hc) h1

/-- Shape of a fully successful submission. -/
theorem create_request_ok_shape (cfg : Config) (now freshId : Str)
    (payload : RideRequestIn) (store : Store)
    (hs : structErrors payload = [])
    (hd : 10 ≤ (digitsOf (normalize_phone payload.phone)).length ∧
          (digitsOf (normalize_phone payload.phone)).length ≤ 15) :
    create_request cfg now freshId payload store =
      ⟨Except.ok freshId, store ++ [(freshId, canonDoc now (canonOf payload))],
       if telegram_enabled cfg then [(canonDoc now (canonOf payload), freshId)]
       else []⟩ := by
  unfold create_request validate
  rw [if_pos hs]
  show (if 10 ≤ (digitsOf (normalize_phone payload.phone)).length ∧
          (digitsOf (normalize_phone payload.phone)).length ≤ 15 then _ else _) = _
  rw [if_pos hd]

/-- Shape of a submission failing the structural (pydantic) checks. -/
theorem create_request_struct_err (cfg : Config) (now freshId : Str)
    (payload : RideRequestIn) (store : Store)
    (hs : structErrors payload ≠ []) :
    create_request cfg now freshId payload store =
      ⟨Except.error ⟨422, Detail.fieldErrors (structErrors payload)⟩, store, []⟩ := by
  unfold create_request validate
  rw [if_neg hs]

/-- Shape of a structurally valid submission whose normalized phone
fails the digit-count bound. -/
theorem create_request_bad_phone (cfg : Config) (now freshId : Str)
    (payload : RideRequestIn) (store : Store)
    (hs : structErrors payload = [])
    (hd : ¬(10 ≤ (digitsOf (normalize_phone payload.phone)).length ∧
            (digitsOf (normalize_phone payload.phone)).length ≤ 15)) :
    create_request cfg now freshId payload store =
      ⟨Except.error ⟨422, Detail.msg "Invalid phone".data⟩, store, []⟩ := by
  unfold create_request validate
  rw [if_pos hs]
  show (if 10 ≤ (digitsOf (normalize_phone payload.phone)).length ∧
          (digitsOf (normalize_phone payload.phone)).length ≤ 15 then _ else _) = _
  rw [if_neg hd]

/-- C2: whenever a submission succeeds, the record handed to the Store
is the payload's document extended with a derived `start_point.geo`
equal to a GeoJSON point whose coordinates are `[lon, lat]` of the
supplied start point — the inbound schema `RideRequestIn` carries no
geo field, so the value can only come from the service. -/
theorem c2_geo_derived (cfg : Config) (now freshId : Str) (payload : RideRequestIn)
    (store : Store) (id : Str)
    (h : (create_request cfg now freshId payload store).outcome = Except.ok id) :
    ∃ d : RideDoc,
      (create_request cfg now freshId payload store).store = store ++ [(freshId, d)] ∧
      d.start_point.geo =
        { type := "Point".data
          coordinates := [payload.start_point.lon, payload.start_point.lat] } ∧
      d.start_point.lat = payload.start_point.lat ∧
      d.start_point.lon = payload.start_point.lon := by
  by_cases hs : structErrors payload = []
  · by_cases hd : 10 ≤ (digitsOf (normalize_phone payload.phone)).length ∧
        (digitsOf (normalize_phone payload.phone)).length ≤ 15
    · rw [create_request_ok_shape cfg now freshId payload store hs hd]
      exact ⟨canonDoc now (canonOf payload), rfl, rfl, rfl, rfl⟩
    · rw [create_request_bad_phone cfg now freshId payload store hs hd] at h
      exact absurd h (by simp)
  · rw [create_request_struct_err cfg now freshId payload store hs] at h
    exact absurd h (by simp)

/-- Witness for C2 at the spec's scenario submission. -/
theorem c2_geo_derived_witness :
    ∃ d : RideDoc,
      (create_request ⟨[], [], []⟩ "t0".data "id0".data scenarioPayload []).store =
        [] ++ [("id0".data, d)] ∧
      d.start_point.geo = { type := "Point".data, coordinates := [37, 55] } ∧
      d.start_point.lat = 55 ∧ d.start_point.lon = 37 :=
  c2_geo_derived ⟨[], [], []⟩ "t0".data "id0".data scenarioPayload [] "id0".data rfl

/-- C8: when the messaging credentials are absent (empty token or empty
chat id), a valid submission still inserts its record and returns the
new id, and no notification task is scheduled. -/
theorem c8_no_credentials_noop (cfg : Config) (now freshId : Str)
    (payload : RideRequestIn) (store : Store)
    (hc : cfg.telegram_bot_token = [] ∨ cfg.telegram_chat_id = [])
    (hs : structErrors payload = [])
    (hd : 10 ≤ (digitsOf (normalize_phone payload.phone)).length ∧
          (digitsOf (normalize_phone payload.phone)).length ≤ 15) :
    (create_request cfg now freshId payload store).outcome = Except.ok freshId ∧
    (create_request cfg now freshId payload store).store =
      store ++ [(freshId, canonDoc now (canonOf payload))] ∧
    (create_request cfg now freshId payload store).notified = [] := by
  have he : telegram_enabled cfg = false := by
    unfold telegram_enabled
    rcases hc with h | h <;> simp [h, List.isEmpty]
  rw [create_request_ok_shape cfg now freshId payload store hs hd]
  refine ⟨rfl, rfl, ?_⟩
  show (if telegram_enabled cfg then _ else _) = _
  rw [he]
  simp

/-- Witness for C8: empty credentials, the scenario payload. -/
theorem c8_no_credentials_noop_witness :
    (create_request ⟨[], [], "s".data⟩ "t0".data "id0".data scenarioPayload []).outcome =
      Except.ok "id0".data ∧
    (create_request ⟨[], [], "s".data⟩ "t0".data "id0".data scenarioPayload []).store =
      [] ++ [("id0".data, canonDoc "t0".data (canonOf scenarioPayload))] ∧
    (create_request ⟨[], [], "s".data⟩ "t0".data "id0".data scenarioPayload []).notified =
      [] :=
  c8_no_credentials_noop ⟨[], [], "s".data⟩ "t0".data "id0".data scenarioPayload []
    (Or.inl rfl) (by decide) (by decide)

/-- C1 counterexample: for the submission with phone "1234" the
post-normalization digit count is below 10, and the code does reject it
without inserting, but the response detail is the structured pydantic
field-error body, not the string "Invalid phone" the claim asserts for
every such submission. -/
theorem c1_counterexample :
    (digitsOf (normalize_phone shortPhonePayload.phone)).length < 10 ∧
    (create_request ⟨[], [], []⟩ "t0".data "id0".data shortPhonePayload []).outcome ≠
      Except.error ⟨422, Detail.msg "Invalid phone".data⟩ ∧
    (create_request ⟨[], [], []⟩ "t0".data "id0".data shortPhonePayload []).outcome =
      Except.error ⟨422, Detail.fieldErrors ["phone".data]⟩ := by
  refine ⟨by decide, ?_, rfl⟩
  intro h
  rw [show (create_request ⟨[], [], []⟩ "t0".data "id0".data shortPhonePayload
        []).outcome = Except.error ⟨422, Detail.fieldErrors ["phone".data]⟩ from rfl] at h
  simp at h

/-- C1 (amended): every submission whose post-normalization phone has a
digit count outside [10,15] is rejected with a 422-equivalent error and
no record is inserted and no notification scheduled; the detail is the
string "Invalid phone" whenever the payload passed the structural
checks (a structurally invalid payload is instead rejected with the
structured field-error 422).  Conversely every successful submission
inserts exactly one record whose phone has a digit count in [10,15]. -/
theorem c1_phone_digit_gate (cfg : Config) (now freshId : Str)
    (payload : RideRequestIn) (store : Store) :
    (¬(10 ≤ (digitsOf (normalize_phone payload.phone)).length ∧
       (digitsOf (normalize_phone payload.phone)).length ≤ 15) →
      (create_request cfg now freshId payload store).store = store ∧
      (create_request cfg now freshId payload store).notified = [] ∧
      (∃ e : HttpError,
        (create_request cfg now freshId payload store).outcome = Except.error e ∧
        e.status = 422) ∧
      (structErrors payload = [] →
        (create_request cfg now freshId payload store).outcome =
          Except.error ⟨422, Detail.msg "Invalid phone".data⟩)) ∧
    (∀ id : Str,
      (create_request cfg now freshId payload store).outcome = Except.ok id →
      ∃ d : RideDoc,
        (create_request cfg now freshId payload store).store = store ++ [(freshId, d)] ∧
        10 ≤ (digitsOf d.phone).length ∧ (digitsOf d.phone).length ≤ 15) := by
  constructor
  · intro hd
    by_cases hs : structErrors payload = []
    · rw [create_request_bad_phone cfg now freshId payload store hs hd]
      exact ⟨rfl, rfl, ⟨⟨422, Detail.msg "Invalid phone".data⟩, rfl, rfl⟩, fun _ => rfl⟩
    · rw [create_request_struct_err cfg now freshId payload store hs]
      exact ⟨rfl, rfl, ⟨⟨422, Detail.fieldErrors (structErrors payload)⟩, rfl, rfl⟩,
        fun h => absurd h hs⟩
  · intro id h
    by_cases hs : structErrors payload = []
    · by_cases hd : 10 ≤ (digitsOf (normalize_phone payload.phone)).length ∧
          (digitsOf (normalize_phone payload.phone)).length ≤ 15
      · rw [create_request_ok_shape cfg now freshId payload store hs hd]
        exact ⟨canonDoc now (canonOf payload), rfl, hd.1, hd.2⟩
      · rw [create_request_bad_phone cfg now freshId payload store hs hd] at h
        exact absurd h (by simp)
    · rw [create_request_struct_err cfg now freshId payload store hs] at h
      exact absurd h (by simp)

/-- Witness for C1: the structurally valid "+1-23-45" phone (5 digits
after normalization) is rejected with the "Invalid phone" detail and
nothing is stored, while the scenario submission succeeds and its
stored phone has 11 digits. -/
theorem c1_phone_digit_gate_witness :
    ((create_request ⟨[], [], []⟩ "t0".data "id0".data punctPhonePayload []).outcome =
        Except.error ⟨422, Detail.msg "Invalid phone".data⟩ ∧
      (create_request ⟨[], [], []⟩ "t0".data "id0".data punctPhonePayload []).store = []) ∧
    (∃ d : RideDoc,
      (create_request ⟨[], [], []⟩ "t0".data "id0".data scenarioPayload []).store =
        [] ++ [("id0".data, d)] ∧
      10 ≤ (digitsOf d.phone).length ∧ (digitsOf d.phone).length ≤ 15) := by
  constructor
  · have h := (c1_phone_digit_gate ⟨[], [], []⟩ "t0".data "id0".data punctPhonePayload
      []).1 (by decide)
    exact ⟨h.2.2.2 (by decide), h.1⟩
  · exact (c1_phone_digit_gate ⟨[], [], []⟩ "t0".data "id0".data scenarioPayload
      []).2 "id0".data rfl

/-- Dropping a while-run only removes a leading segment. -/
theorem dropWhile_append_self (p : Char → Bool) (x : Str) :
    ∃ s, s ++ x.dropWhile p = x := by
  induction x with
  | nil => exact ⟨[], rfl⟩
  | cons a t ih =>
    by_cases h : p a = true
    · obtain ⟨s, hs⟩ := ih
      exact ⟨a :: s, by rw [List.dropWhile_cons, if_pos h, List.cons_append, hs]⟩
    · exact ⟨[], by rw [List.dropWhile_cons, if_neg h]; rfl⟩

/-- The stripped string is a front segment of the string with its
leading whitespace removed. -/
theorem pyStrip_decomp (l : Str) :
    ∃ s, l.dropWhile Char.isWhitespace = pyStrip l ++ s := by
  obtain ⟨s, hs⟩ :=
    dropWhile_append_self Char.isWhitespace ((l.dropWhile Char.isWhitespace).reverse)
  refine ⟨s.reverse, ?_⟩
  have h := congrArg List.reverse hs
  rw [List.reverse_append, List.reverse_reverse] at h
  exact h.symm

/-- The first character of a stripped string is not whitespace. -/
theorem pyStrip_head_not_ws {l : Str} {c : Char}
    (h : (pyStrip l).head? = some c) : c.isWhitespace = false := by
  obtain ⟨s, hs⟩ := pyStrip_decomp l
  cases hp : pyStrip l with
  | nil => rw [hp] at h; simp at h
  | cons a rest =>
    rw [hp] at h
    have hac : a = c := Option.some.inj h
    have hm : (l.dropWhile Char.isWhitespace).head? = some a := by
      rw [hs, hp]; rfl
    have h2 := List.head?_dropWhile_not Char.isWhitespace l
    rw [hm] at h2
    rw [← hac]
    exact h2

/-- The last character of a stripped string is not whitespace. -/
theorem pyStrip_getLast_not_ws {l : Str} {c : Char}
    (h : (pyStrip l).getLast? = some c) : c.isWhitespace = false := by
  unfold pyStrip at h
  rw [List.getLast?_reverse] at h
  have h2 := List.head?_dropWhile_not Char.isWhitespace
    ((l.dropWhile Char.isWhitespace).reverse)
  rw [h] at h2
  exact h2

/-- Stripping is the identity on a string whose first and last
characters are not whitespace (interior whitespace is untouched). -/
theorem pyStrip_eq_self_of_ends {l : Str}
    (hh : ∀ c, l.head? = some c → c.isWhitespace = false)
    (hl : ∀ c, l.getLast? = some c → c.isWhitespace = false) :
    pyStrip l = l := by
  unfold pyStrip
  have h1 : l.dropWhile Char.isWhitespace = l := by
    cases l with
    | nil => rfl
    | cons a t => rw [List.dropWhile_cons, hh a rfl]; simp
  rw [h1]
  have h2 : l.reverse.dropWhile Char.isWhitespace = l.reverse := by
    cases hr : l.reverse with
    | nil => rfl
    | cons a t =>
      have ha : l.getLast? = some a := by
        rw [← List.head?_reverse, hr]; rfl
      rw [List.dropWhile_cons, hl a ha]; simp
  rw [h2, List.reverse_reverse]

/-- The last character of the strip-and-remove-spaces pass is not
whitespace. -/
theorem removeSpaces_getLast_not_ws {v : Str} {c : Char}
    (h : (removeSpaces (pyStrip v)).getLast? = some c) : c.isWhitespace = false := by
  have h' : ((removeSpaces (pyStrip v)).reverse).head? = some c := by
    rw [List.head?_reverse]; exact h
  rw [show (removeSpaces (pyStrip v)).reverse
        = List.filter (fun x => !(x == ' ')) (pyStrip v).reverse from
      (List.filter_reverse _ _).symm] at h'
  cases hw : (pyStrip v).reverse with
  | nil => rw [hw] at h'; simp at h'
  | cons a t =>
    have ha : a.isWhitespace = false := by
      have hg : (pyStrip v).getLast? = some a := by
        rw [← List.head?_reverse, hw]; rfl
      exact pyStrip_getLast_not_ws hg
    have haq : (!(a == ' ')) = true := by
      cases hsp : a == ' ' with
      | false => rfl
      | true =>
        have hae : a = ' ' := eq_of_beq hsp
        rw [hae] at ha
        exact absurd ha (by decide)
    rw [hw, List.filter_cons, if_pos haq] at h'
    have := Option.some.inj h'
    rw [← this]
    exact ha

/-- Case analysis for `normalize_tg`. -/
theorem normalize_tg_cases (v : Str) :
    normalize_tg v = removeSpaces (pyStrip v) ∨
    normalize_tg v = (removeSpaces (pyStrip v)).tail := by
  unfold normalize_tg
  by_cases h : (removeSpaces (pyStrip v)).head? = some '@'
  · right; rw [if_pos h]
  · left; rw [if_neg h]

/-- The normalized handle contains no space characters. -/
theorem normalize_tg_no_space {v : Str} :
    ∀ c ∈ normalize_tg v, (!(c == ' ')) = true := by
  intro c hc
  rcases normalize_tg_cases v with h | h
  · rw [h] at hc
    exact (List.mem_filter.mp hc).2
  · rw [h] at hc
    exact (List.mem_filter.mp (List.tail_subset _ hc)).2

/-- The last character of a nonempty tail is the last character of the
whole list. -/
theorem getLast?_tail_eq {x : Str} {c : Char} (hx : x.tail.getLast? = some c) :
    x.getLast? = some c := by
  cases x with
  | nil => simp at hx
  | cons a t =>
    cases t with
    | nil => simp at hx
    | cons b u => rw [List.getLast?_cons_cons]; exact hx

/-- The normalized handle never ends in whitespace. -/
theorem normalize_tg_getLast_not_ws {v : Str} {c : Char}
    (h : (normalize_tg v).getLast? = some c) : c.isWhitespace = false := by
  rcases normalize_tg_cases v with hcase | hcase
  · rw [hcase] at h
    exact removeSpaces_getLast_not_ws h
  · rw [hcase] at h
    exact removeSpaces_getLast_not_ws (getLast?_tail_eq h)

/-- C5 counterexample: the claim's idempotence fails on the concrete
input "@@x" — one pass yields "@x", a second pass strips another "@"
and yields "x". -/
theorem c5_counterexample :
    normalize_tg (normalize_tg "@@x".data) ≠ normalize_tg "@@x".data ∧
    normalize_tg "@@x".data = "@x".data ∧
    normalize_tg (normalize_tg "@@x".data) = "x".data := by
  refine ⟨?_, rfl, rfl⟩
  decide

/-- C5 (amended): telegram-handle normalization is idempotent on every
input whose normalized form neither begins with "@" (possible when the
raw value had several leading "@" characters) nor begins with a
whitespace character (possible when a non-space whitespace character
followed a dropped leading "@"). -/
theorem c5_normalize_tg_idem_amended (v : Str)
    (h1 : (normalize_tg v).head? ≠ some '@')
    (h2 : ∀ c, (normalize_tg v).head? = some c → c.isWhitespace = false) :
    normalize_tg (normalize_tg v) = normalize_tg v := by
  set w := normalize_tg v with hw
  have hstrip : pyStrip w = w :=
    pyStrip_eq_self_of_ends h2 (fun c hc => normalize_tg_getLast_not_ws hc)
  have hfil : removeSpaces w = w :=
    List.filter_eq_self.mpr normalize_tg_no_space
  unfold normalize_tg
  rw [hstrip, hfil, if_neg h1]

/-- Witness for C5 at the concrete input " @user name ": its normalized
form "username" starts with a non-'@', non-whitespace character, and a
second pass leaves it unchanged. -/
theorem c5_normalize_tg_idem_amended_witness :
    normalize_tg (normalize_tg " @user name ".data) = normalize_tg " @user name ".data :=
  c5_normalize_tg_idem_amended " @user name ".data (by decide)
    (fun c h => by
      rw [show (normalize_tg " @user name ".data).head? = some 'u' from rfl] at h
      rw [← Option.some.inj h]
      decide)

/-- C7 counterexample: with the allow-list {"1"} configured and sender
id 2 (not on it), an unrecognized free-text message is answered with
the fixed "command not understood" reply, not with the fixed refusal
the claim asserts for every message — though indeed no Store operation
is issued. -/
theorem c7_counterexample :
    (dispatch ["1".data] 2 (TgMessage.freeText "hello".data) []).replies ≠
      [Reply.denied] ∧
    (dispatch ["1".data] 2 (TgMessage.freeText "hello".data) []).replies =
      [Reply.notUnderstood] ∧
    is_allowed ["1".data] 2 = false ∧
    (dispatch ["1".data] 2 (TgMessage.freeText "hello".data) []).ops = [] := by
  refine ⟨by decide, rfl, by decide, rfl⟩

/-- C7 (amended): when an allow-list is configured and the sender is
not on it, no handler issues any Store operation and the store is
unchanged, for every message; the reply is the fixed refusal for the
four commands and for free text matching one of the two shortcut
phrases, while any other free text receives the fixed "command not
understood" reply (sent without an access check). -/
theorem c7_disallowed_no_store (allowed : List Str) (uid : Int) (msg : TgMessage)
    (store : Store) (hne : allowed ≠ [])
    (hmem : ¬((toString uid).data ∈ allowed)) :
    (dispatch allowed uid msg store).ops = [] ∧
    (dispatch allowed uid msg store).store = store ∧
    (dispatch allowed uid msg store).replies =
      (match msg with
       | TgMessage.freeText t =>
         if pyLower (pyStrip t) = "сколько участников?".data ∨
            pyLower (pyStrip t) = "последние 5".data then [Reply.denied]
         else [Reply.notUnderstood]
       | _ => [Reply.denied]) := by
  have hia : is_allowed allowed uid = false := by
    unfold is_allowed
    cases allowed with
    | nil => exact absurd rfl hne
    | cons a as =>
      simp only [List.isEmpty_cons, Bool.false_or]
      cases hc : (a :: as).contains ((toString uid).data) with
      | false => rfl
      | true => exact absurd (List.mem_of_elem_eq_true hc) hmem
  cases msg with
  | cmdStart => simp [dispatch, start_cmd, hia]
  | cmdCount => simp [dispatch, count_cmd, hia]
  | cmdLast => simp [dispatch, last_cmd, hia]
  | cmdDelete args => simp [dispatch, delete_cmd, hia]
  | freeText t =>
    show (message_router allowed uid t store).ops = [] ∧
        (message_router allowed uid t store).store = store ∧
        (message_router allowed uid t store).replies =
          (if pyLower (pyStrip t) = "сколько участников?".data ∨
              pyLower (pyStrip t) = "последние 5".data then [Reply.denied]
           else [Reply.notUnderstood])
    unfold message_router
    by_cases h1 : pyLower (pyStrip t) = "сколько участников?".data
    · rw [if_pos h1, if_pos (Or.inl h1)]
      simp [count_cmd, hia]
    · by_cases h2 : pyLower (pyStrip t) = "последние 5".data
      · rw [if_neg h1, if_pos h2, if_pos (Or.inr h2)]
        simp [last_cmd, hia]
      · rw [if_neg h1, if_neg h2, if_neg (fun hor => hor.elim h1 h2)]
        exact ⟨rfl, rfl, rfl⟩

/-- Witness for C7: the disallowed sender 2 issuing the /count command
gets the fixed refusal, no Store operation, and an unchanged store. -/
theorem c7_disallowed_no_store_witness :
    (dispatch ["1".data] 2 TgMessage.cmdCount []).ops = [] ∧
    (dispatch ["1".data] 2 TgMessage.cmdCount []).store = [] ∧
    (dispatch ["1".data] 2 TgMessage.cmdCount []).replies = [Reply.denied] := by
  have h := c7_disallowed_no_store ["1".data] 2 TgMessage.cmdCount []
    (by decide) (by decide)
  exact ⟨h.1, h.2.1, h.2.2⟩

end RideForm
